import Mathlib

/-!
Shallow embedding of the bubuku broker lifecycle controller
(src/bubuku/broker.py) and broker identity resolver
(src/bubuku/id_generator.py).

Broker identities, topic names and partition names travel as strings, as
they do in the Python code (children of coordination-tree nodes are node
names; `leader` and the isr entries are stringified before comparison in
broker.py lines 109-111).
-/

namespace Bubuku

/-- Modelled from the spec: the Broker Configuration Store interface of
section 6 (`getProperty`, `setProperty`, `deleteProperty`); its
implementation (`bubuku.config.KafkaProperties`) is not among the given
sources. A store is a list of key/value pairs, later entries shadowed. -/
structure KafkaProperties where
  props : List (String × String)
deriving DecidableEq

/-- `KafkaProperties.get_property`: the value at a key, if present. -/
def get_property (kp : KafkaProperties) (key : String) : Option String :=
  (kp.props.find? (fun p => p.1 == key)).map (fun p => p.2)

/-- `KafkaProperties.set_property`: bind a key to a value. -/
def set_property (kp : KafkaProperties) (key value : String) : KafkaProperties :=
  ⟨(key, value) :: kp.props.filter (fun p => !(p.1 == key))⟩

/-- `KafkaProperties.delete_property`: remove a key. -/
def delete_property (kp : KafkaProperties) (key : String) : KafkaProperties :=
  ⟨kp.props.filter (fun p => !(p.1 == key))⟩

/-- One partition state record, the JSON at
`/brokers/topics/{t}/partitions/{p}/state`: a `leader` identity and the
in-sync replica set, both already stringified (broker.py lines 106-111
applies `str` to the leader and to each isr entry before comparing). -/
structure PartitionState where
  leader : String
  isr : List String
deriving DecidableEq

/-- The slice of the coordination tree the controller reads: the children
of `/brokers/ids` (currently registered broker ids) and, per topic, the
partitions with their state records (broker.py lines 75, 104-108). -/
structure ZkState where
  brokerIds : List String
  topics : List (String × List (String × PartitionState))
deriving DecidableEq

/-- Python truthiness of an optional list (`if active_broker_ids:`):
false for `None` and for the empty list. -/
def optTruthy : Option (List String) → Bool
  | none => false
  | some l => !l.isEmpty

/-- The underlying list of an optional list (`None` reads as empty). -/
def optList : Option (List String) → List String
  | none => []
  | some l => l

/-- `BrokerManager._is_clean_election` (broker.py lines 35-37): the
`unclean.leader.election.enable` property compared with the exact string
`false`; an absent property (`None` in Python) also compares unequal. -/
def is_clean_election (kp : KafkaProperties) : Bool :=
  get_property kp "unclean.leader.election.enable" == some "false"

/-- The per-partition body of `_is_leadership_transferred` (broker.py
lines 109-122): true when scanning this partition would `return False`.
The first disjunct is the active-identities branch (leader not active, yet
some isr member active); when no isr member is active the code only logs
and falls through, so that case contributes nothing here, but the dead
check still runs on the same partition, giving the second disjunct. -/
def partitionBlocks (active dead : Option (List String)) (st : PartitionState) : Bool :=
  (optTruthy active && !((optList active).contains st.leader)
      && st.isr.any (fun x => (optList active).contains x))
    || (optTruthy dead && (optList dead).contains st.leader)

/-- `BrokerManager._is_leadership_transferred` (broker.py lines 100-123):
under clean election, scan every partition of every topic and return False
on the first blocking partition; otherwise (and when the scan finds
nothing) return True. The early `return False` of the Python loop and this
conjunction over all partitions give the same verdict. -/
def is_leadership_transferred (kp : KafkaProperties) (zk : ZkState)
    (active dead : Option (List String)) : Bool :=
  if is_clean_election kp then
    zk.topics.all (fun tp => tp.2.all (fun ps => !partitionBlocks active dead ps.2))
  else true

/-- `BrokerManager.has_leadership` (broker.py lines 39-47):
`if not broker_id: return False` is Python truthiness, so both a missing
identity and the empty string short-circuit to false; otherwise the result
is the negation of the safety check run with `dead_broker_ids=[broker_id]`
and no active-identities filter. -/
def has_leadership (broker_id : Option String) (kp : KafkaProperties) (zk : ZkState) : Bool :=
  match broker_id with
  | none => false
  | some s => if s == "" then false else !(is_leadership_transferred kp zk none (some [ s ]))

/-- The mutable state a `BrokerManager` owns (broker.py lines 16-24):
whether a process handle is held, the registration-wait timeout (initially
300 seconds) and the configuration store. -/
structure BrokerState where
  process : Bool
  wait_timeout : Nat
  kafka_properties : KafkaProperties
deriving DecidableEq

/-- What one call of `start_kafka_process` did: the state afterwards,
whether the leadership safety check was evaluated, whether a process was
spawned, whether the configuration was persisted (`dump`), and whether
`LeaderElectionInProgress` was raised. -/
structure StartOutcome where
  state : BrokerState
  checked : Bool
  spawned : Bool
  dumped : Bool
  election_error : Bool
deriving DecidableEq

/-- `BrokerManager.start_kafka_process` (broker.py lines 68-98). The body
runs only when no process handle is held. The safety check gets
`active_broker_ids` = the children of `/brokers/ids` and no dead set; if
it fails, `LeaderElectionInProgress` is raised before anything is mutated.
Otherwise `broker.id` is set (when the id manager knows an identity, the
check is `is not None`, not truthiness) or deleted, `zookeeper.connect` is
set, the configuration is dumped, the process spawned, and when
registration is not observed within the timeout
(`started_in_time = false`) the timeout grows by 60 seconds. -/
def start_kafka_process (s : BrokerState) (broker_id : Option String) (zk : ZkState)
    (zookeeper_address : String) (started_in_time : Bool) : StartOutcome :=
  if s.process then
    ⟨s, false, false, false, false⟩
  else if !(is_leadership_transferred s.kafka_properties zk (some zk.brokerIds) none) then
    ⟨s, true, false, false, true⟩
  else
    let props1 :=
      match broker_id with
      | some bid => set_property s.kafka_properties "broker.id" bid
      | none => delete_property s.kafka_properties "broker.id"
    let props2 := set_property props1 "zookeeper.connect" zookeeper_address
    let timeout2 := if started_in_time then s.wait_timeout else s.wait_timeout + 60
    ⟨⟨true, timeout2, props2⟩, true, true, true, false⟩

/-- `BrokerIdGenerator.wait_for_broker_id_absence` (id_generator.py lines
24-26): `while self.is_registered(): sleep(1)`. `registered k` is the
answer of the k-th `is_registered` lookup, `fuel` bounds how many polls
the model observes, `polls` counts lookups already made; the result is the
total number of registration lookups performed within the fuel bound. -/
def wait_absence_polls (registered : Nat → Bool) : Nat → Nat → Nat
  | 0, polls => polls
  | fuel + 1, polls =>
    if registered polls then wait_absence_polls registered fuel (polls + 1) else polls + 1

/-- What one call of `stop_kafka_process` did: the state afterwards,
whether `process.terminate()` was called, how many registration lookups
the absence wait performed, and whether an exception escaped. -/
structure StopOutcome where
  state : BrokerState
  terminated : Bool
  zk_lookups : Nat
  raised : Bool
deriving DecidableEq

/-- `BrokerManager.stop_kafka_process` (broker.py lines 31-33):
`_terminate_process()` terminates and clears the handle only when one is
held (lines 49-57, exceptions swallowed), then `_wait_for_zk_absence()`
(lines 59-63, exceptions swallowed) unconditionally runs the id manager's
absence-polling loop. Nothing ever raises out of it. -/
def stop_kafka_process (s : BrokerState) (registered : Nat → Bool) (fuel : Nat) : StopOutcome :=
  ⟨⟨false, s.wait_timeout, s.kafka_properties⟩, s.process,
    wait_absence_polls registered fuel 0, false⟩

/-- A dotted-quad IPv4 address `a.b.c.d`, the parse of the `ip` string
handed to `_create_rfc1918_address_hash` (id_generator.py line 48). -/
structure IPv4 where
  a : Nat
  b : Nat
  c : Nat
  d : Nat
deriving DecidableEq

/-- The four octets are in range: never checked by the Python parse, but
satisfied by any real dotted-quad address. -/
def IPv4.valid (ip : IPv4) : Prop :=
  ip.a < 256 ∧ ip.b < 256 ∧ ip.c < 256 ∧ ip.d < 256

instance (ip : IPv4) : Decidable ip.valid :=
  inferInstanceAs (Decidable (ip.a < 256 ∧ ip.b < 256 ∧ ip.c < 256 ∧ ip.d < 256))

/-- `functools.reduce(lambda o, v: o * 256 + v, address, 0)`
(id_generator.py line 58). -/
def foldOctets (address : List Nat) : Nat :=
  address.foldl (fun o v => o * 256 + v) 0

/-- The octet-list rewriting of `_create_rfc1918_address_hash`
(id_generator.py lines 50-57): the first octet becomes the discriminator
1, 2 or 3 according to the private block, or the address is rejected. -/
def rfc1918_discriminated (ip : IPv4) : Option (List Nat) :=
  if ip.a = 10 then some [ 1, ip.b, ip.c, ip.d ]
  else if ip.a = 192 ∧ ip.b = 168 then some [ 2, ip.b, ip.c, ip.d ]
  else if ip.a = 172 ∧ ip.b &&& 240 = 16 then some [ 3, ip.b, ip.c, ip.d ]
  else none

/-- The constant `256 * 256 * 256 * 3 + 1` of id_generator.py line 58. -/
def reservedMaxId : Nat := 256 * 256 * 256 * 3 + 1

/-- The numeric identity `_create_rfc1918_address_hash` derives, before
stringification. -/
def rfc1918_value (ip : IPv4) : Option Nat :=
  (rfc1918_discriminated ip).map foldOctets

/-- `_create_rfc1918_address_hash` (id_generator.py lines 47-58): the
derived identity and the reserved max id, both rendered in decimal, or
`None` for an address outside the three recognized blocks. -/
def create_rfc1918_address_hash (ip : IPv4) : Option (String × String) :=
  (rfc1918_value ip).map (fun v => (toString v, toString reservedMaxId))

/-- `BrokerIDByIp.__init__` (id_generator.py lines 62-68). When the hash
returns `None`, the tuple unpacking `self.broker_id, max_id = ...` raises
`TypeError` before `set_property` runs, so failure leaves the
configuration untouched (the explicit `raise NotImplementedError` on line
68 is unreachable: a successful hash never yields a `None` broker id).
On success `reserved.broker.max.id` is written. The result is the stored
broker id (`none` = construction failed) and the configuration after. -/
def brokerIDByIp_init (kafka_props : KafkaProperties) (ip : IPv4) :
    Option String × KafkaProperties :=
  match create_rfc1918_address_hash ip with
  | none => (none, kafka_props)
  | some (broker_id, max_id) =>
    (some broker_id, set_property kafka_props "reserved.broker.max.id" max_id)

/-- Which RFC1918 private range an address belongs to (1 for 10.0.0.0/8,
2 for 192.168.0.0/16, 3 for 172.16.0.0/12), phrased as the spec phrases
it; the code's test for the third block is `(address[1] & 0xF0) == 16`,
shown below to agree on valid octets. -/
def privateRange (ip : IPv4) : Option Nat :=
  if ip.a = 10 then some 1
  else if ip.a = 192 ∧ ip.b = 168 then some 2
  else if ip.a = 172 ∧ 16 ≤ ip.b ∧ ip.b ≤ 31 then some 3
  else none

/-! ### Concrete fixtures used by witnesses and examples -/

/-- A configuration with clean leader election enabled. -/
def cleanProps : KafkaProperties := ⟨[ ( "unclean.leader.election.enable", "false" ) ]⟩

/-- The partition layout of the spec's worked example: T1/P0 with leader 1
and isr [1, 2]; T1/P1 with leader 3 and isr [3]; brokers 1 and 2
registered. -/
def zkT1 : ZkState :=
  ⟨[ "1", "2" ],
    [ ( "T1", [ ( "0", ⟨ "1", [ "1", "2" ] ⟩), ( "1", ⟨ "3", [ "3" ] ⟩) ]) ]⟩

/-- A tree where the only registered broker is 1 while partition T/0 still
has leader 2 with broker 1 in its isr: the safety check blocks on it. -/
def blockedZk : ZkState := ⟨[ "1" ], [ ( "T", [ ( "0", ⟨ "2", [ "1" ] ⟩) ]) ]⟩

/-- A tree with a partition whose leader is the dead identity 2. -/
def deadLeaderZk : ZkState := ⟨[ "1" ], [ ( "T", [ ( "0", ⟨ "2", [ "2" ] ⟩) ]) ]⟩

/-! ### Lemmas about the leadership safety check -/

/-- Under clean election the scan result is the conjunction over all
partitions. -/
theorem transferred_clean (kp : KafkaProperties) (zk : ZkState)
    (active dead : Option (List String)) (hclean : is_clean_election kp = true) :
    is_leadership_transferred kp zk active dead
      = zk.topics.all (fun tp => tp.2.all (fun ps => !partitionBlocks active dead ps.2)) := by
  unfold is_leadership_transferred
  rw [hclean]
  simp

/-- `partitionBlocks` with an active set and no dead set: the partition
blocks exactly when the active set is nonempty, the leader is outside it
and some isr member is inside it. -/
theorem partitionBlocks_active_iff (l : List String) (st : PartitionState) :
    partitionBlocks (some l) none st = true ↔
      l ≠ [] ∧ st.leader ∉ l ∧ ∃ x ∈ st.isr, x ∈ l := by
  rw [partitionBlocks]
  simp [optTruthy, optList, List.elem_iff, and_assoc]

/-- `partitionBlocks` with a dead set and no active set: the partition
blocks exactly when the dead set is nonempty and holds the leader. -/
theorem partitionBlocks_dead_iff (dl : List String) (st : PartitionState) :
    partitionBlocks none (some dl) st = true ↔ dl ≠ [] ∧ st.leader ∈ dl := by
  simp [partitionBlocks, optTruthy, optList, List.elem_iff]

/-- Under clean election the check reports unsafe exactly when some
partition of some topic blocks. -/
theorem transferred_eq_false_iff (kp : KafkaProperties) (zk : ZkState)
    (active dead : Option (List String)) (hclean : is_clean_election kp = true) :
    (is_leadership_transferred kp zk active dead = false ↔
      ∃ tp ∈ zk.topics, ∃ ps ∈ tp.2, partitionBlocks active dead ps.2 = true) := by
  rw [transferred_clean kp zk active dead hclean]
  simp [List.all_eq_false]

/-- With an active set, no dead set and clean election, the check is
unsafe exactly when some partition has a leader outside the (nonempty)
active set together with an in-sync replica inside it; a partition whose
isr has no active member never makes the verdict unsafe. -/
theorem transferred_active_false_iff (kp : KafkaProperties) (zk : ZkState) (l : List String)
    (hclean : is_clean_election kp = true) :
    (is_leadership_transferred kp zk (some l) none = false ↔
      ∃ tp ∈ zk.topics, ∃ ps ∈ tp.2,
        l ≠ [] ∧ ps.2.leader ∉ l ∧ ∃ x ∈ ps.2.isr, x ∈ l) := by
  rw [transferred_eq_false_iff kp zk (some l) none hclean]
  simp only [partitionBlocks_active_iff]

/-- With a singleton dead set, no active set and clean election, the
check is unsafe exactly when some partition still has that identity as
leader. -/
theorem transferred_dead_single_iff (kp : KafkaProperties) (zk : ZkState) (s : String)
    (hclean : is_clean_election kp = true) :
    (is_leadership_transferred kp zk none (some [ s ]) = false ↔
      ∃ tp ∈ zk.topics, ∃ ps ∈ tp.2, ps.2.leader = s) := by
  rw [transferred_eq_false_iff kp zk none (some [ s ]) hclean]
  simp [partitionBlocks_dead_iff]

/-- When clean election is not configured, the check does not look at the
tree and reports safe. -/
theorem transferred_of_not_clean (kp : KafkaProperties)
    (h : is_clean_election kp = false) (zk : ZkState) (active dead : Option (List String)) :
    is_leadership_transferred kp zk active dead = true := by
  simp [is_leadership_transferred, h]

/-! ### The claims -/

/-- C1: under clean election, with an activeIdentities set supplied and no
deadIdentities, the check reports unsafe exactly when some partition has a
leader outside the (nonempty) active set and at least one in-sync replica
inside it; a partition whose leader is inactive and whose isr holds no
active member is logged and skipped, never making the verdict unsafe on
its account. In particular the example T1/P0 (leader 1, isr [1,2]) and
T1/P1 (leader 3, isr [3]) with activeIdentities {1,2} reports safe. -/
theorem C1_active_branch_and_example (kp : KafkaProperties) (zk : ZkState)
    (l : List String) (hclean : is_clean_election kp = true) :
    (is_leadership_transferred kp zk (some l) none = false ↔
      ∃ tp ∈ zk.topics, ∃ ps ∈ tp.2,
        l ≠ [] ∧ ps.2.leader ∉ l ∧ ∃ x ∈ ps.2.isr, x ∈ l)
    ∧ is_leadership_transferred cleanProps zkT1 (some [ "1", "2" ]) none = true :=
  ⟨transferred_active_false_iff kp zk l hclean, by decide⟩

/-- Witness for C1 at the spec's worked example. -/
theorem C1_active_branch_and_example_witness :
    is_clean_election cleanProps = true
    ∧ ((is_leadership_transferred cleanProps zkT1 (some [ "1", "2" ]) none = false ↔
        ∃ tp ∈ zkT1.topics, ∃ ps ∈ tp.2,
          ([ "1", "2" ] : List String) ≠ [] ∧ ps.2.leader ∉ ([ "1", "2" ] : List String)
            ∧ ∃ x ∈ ps.2.isr, x ∈ ([ "1", "2" ] : List String))
      ∧ is_leadership_transferred cleanProps zkT1 (some [ "1", "2" ]) none = true) :=
  ⟨by decide, C1_active_branch_and_example cleanProps zkT1 [ "1", "2" ] (by decide)⟩

/-- C2: `has_leadership` is false whenever no identity is known (so always
false under the delegated policy, whose `get_broker_id` yields none);
otherwise it returns the negation of the safety check run with
deadIdentities = {identity} and no activeIdentities, which under clean
election holds exactly when some partition state lists the identity as
leader. -/
theorem C2_has_leadership_contract (broker_id : Option String) (kp : KafkaProperties)
    (zk : ZkState) :
    (broker_id = none → has_leadership broker_id kp zk = false)
    ∧ (broker_id = some "" → has_leadership broker_id kp zk = false)
    ∧ (∀ s, broker_id = some s → s ≠ "" →
        has_leadership broker_id kp zk
          = !(is_leadership_transferred kp zk none (some [ s ])))
    ∧ (is_clean_election kp = true →
        ∀ s, broker_id = some s → s ≠ "" →
          (has_leadership broker_id kp zk = true ↔
            ∃ tp ∈ zk.topics, ∃ ps ∈ tp.2, ps.2.leader = s)) := by
  have hsome : ∀ s, s ≠ "" →
      has_leadership (some s) kp zk = !(is_leadership_transferred kp zk none (some [ s ])) := by
    intro s hne
    have hb : (s == "") = false := beq_eq_false_iff_ne.mpr hne
    simp [has_leadership, hb]
  refine ⟨?_, ?_, ?_, ?_⟩
  · intro h
    rw [h]
    rfl
  · intro h
    rw [h]
    simp [has_leadership]
  · intro s hs hne
    rw [hs]
    exact hsome s hne
  · intro hclean s hs hne
    rw [hs, hsome s hne, Bool.not_eq_true']
    exact transferred_dead_single_iff kp zk s hclean

/-- C3: when unclean leader election is permitted (the property is not the
exact string false), the check reports safe for every tree, every active
set and every dead set, without consulting any partition state. -/
theorem C3_unclean_election_always_safe (kp : KafkaProperties)
    (h : get_property kp "unclean.leader.election.enable" ≠ some "false") :
    ∀ (zk : ZkState) (active dead : Option (List String)),
      is_leadership_transferred kp zk active dead = true := by
  intro zk active dead
  have hc : is_clean_election kp = false := by
    unfold is_clean_election
    exact beq_eq_false_iff_ne.mpr h
  exact transferred_of_not_clean kp hc zk active dead

/-- Witness for C3: empty configuration, a partition whose leader is the
dead identity 2, still safe. -/
theorem C3_unclean_election_always_safe_witness :
    get_property (⟨[]⟩ : KafkaProperties) "unclean.leader.election.enable" ≠ some "false"
    ∧ is_leadership_transferred ⟨[]⟩ deadLeaderZk (some [ "1" ]) (some [ "2" ]) = true :=
  ⟨by decide,
    C3_unclean_election_always_safe ⟨[]⟩ (by decide) deadLeaderZk (some [ "1" ]) (some [ "2" ])⟩

/-- C10: the cluster counts as clean-election exactly when the
`unclean.leader.election.enable` property equals the string false; for any
other value (or an absent property) the check is skipped, so the start
safety gate passes and `has_leadership` is false whatever the partition
state says. -/
theorem C10_clean_election_exact_string (kp : KafkaProperties) :
    (is_clean_election kp = true ↔
      get_property kp "unclean.leader.election.enable" = some "false")
    ∧ (get_property kp "unclean.leader.election.enable" ≠ some "false" →
        (∀ (zk : ZkState) (active dead : Option (List String)),
          is_leadership_transferred kp zk active dead = true)
        ∧ (∀ (timeout : Nat) (broker_id : Option String) (zk : ZkState)
              (zkaddr : String) (intime : Bool),
            (start_kafka_process ⟨false, timeout, kp⟩ broker_id zk zkaddr intime).election_error
              = false)
        ∧ (∀ (broker_id : Option String) (zk : ZkState),
            has_leadership broker_id kp zk = false)) := by
  constructor
  · unfold is_clean_election
    exact beq_iff_eq
  · intro h
    have hc : is_clean_election kp = false := by
      unfold is_clean_election
      exact beq_eq_false_iff_ne.mpr h
    refine ⟨fun zk active dead => transferred_of_not_clean kp hc zk active dead, ?_, ?_⟩
    · intro timeout broker_id zk zkaddr intime
      simp [start_kafka_process, transferred_of_not_clean kp hc]
    · intro broker_id zk
      match broker_id with
      | none => rfl
      | some s => simp [has_leadership, transferred_of_not_clean kp hc]

/-- C7: when no process is held and the safety check (run with
activeIdentities = the registered broker ids and no deadIdentities)
reports unsafe, start raises `LeaderElectionInProgress` and performs no
side effect: the state (process handle, timeout, configuration) is
returned unchanged, nothing is spawned and nothing is persisted. -/
theorem C7_election_in_progress_no_side_effects (s : BrokerState) (broker_id : Option String)
    (zk : ZkState) (zkaddr : String) (intime : Bool)
    (hp : s.process = false)
    (hblocked : is_leadership_transferred s.kafka_properties zk (some zk.brokerIds) none
      = false) :
    start_kafka_process s broker_id zk zkaddr intime = ⟨s, true, false, false, true⟩ := by
  simp [start_kafka_process, hp, hblocked]

/-- Witness for C7: clean election, broker 1 registered, partition T/0
with inactive leader 2 and active isr member 1. -/
theorem C7_election_in_progress_no_side_effects_witness :
    (⟨false, 300, cleanProps⟩ : BrokerState).process = false
    ∧ is_leadership_transferred cleanProps blockedZk (some blockedZk.brokerIds) none = false
    ∧ start_kafka_process ⟨false, 300, cleanProps⟩ none blockedZk "zk1:2181" true
        = ⟨⟨false, 300, cleanProps⟩, true, false, false, true⟩ :=
  ⟨rfl, by decide,
    C7_election_in_progress_no_side_effects ⟨false, 300, cleanProps⟩ none blockedZk
      "zk1:2181" true rfl (by decide)⟩

/-- C8: a second start while a process handle is held is a no-op: no
safety check, no spawn, no configuration write and no persist happen, and
the state (handle, timeout, configuration) is returned unchanged. -/
theorem C8_start_idempotent_when_running (s : BrokerState) (broker_id : Option String)
    (zk : ZkState) (zkaddr : String) (intime : Bool) (hp : s.process = true) :
    start_kafka_process s broker_id zk zkaddr intime = ⟨s, false, false, false, false⟩ := by
  simp [start_kafka_process, hp]

/-- Witness for C8 on a running controller. -/
theorem C8_start_idempotent_when_running_witness :
    (⟨true, 300, cleanProps⟩ : BrokerState).process = true
    ∧ start_kafka_process ⟨true, 300, cleanProps⟩ (some "7") zkT1 "zk1:2181" false
        = ⟨⟨true, 300, cleanProps⟩, false, false, false, false⟩ :=
  ⟨rfl,
    C8_start_idempotent_when_running ⟨true, 300, cleanProps⟩ (some "7") zkT1 "zk1:2181" false
      rfl⟩

/-- Every run of the absence-wait loop performs at least `polls` lookups;
used below. -/
theorem wait_absence_polls_ge (registered : Nat → Bool) :
    ∀ (fuel polls : Nat), polls ≤ wait_absence_polls registered fuel polls := by
  intro fuel
  induction fuel with
  | zero =>
    intro polls
    simp [wait_absence_polls]
  | succ n ih =>
    intro polls
    unfold wait_absence_polls
    by_cases h : registered polls = true
    · rw [if_pos h]
      exact le_trans (Nat.le_succ polls) (ih (polls + 1))
    · rw [if_neg h]
      exact Nat.le_succ polls

/-- While the identity stays registered, the loop never stops polling:
it uses up all the observed fuel. -/
theorem wait_absence_polls_all_registered (registered : Nat → Bool)
    (hall : ∀ k, registered k = true) :
    ∀ (fuel polls : Nat), wait_absence_polls registered fuel polls = fuel + polls := by
  intro fuel
  induction fuel with
  | zero =>
    intro polls
    simp [wait_absence_polls]
  | succ n ih =>
    intro polls
    unfold wait_absence_polls
    rw [if_pos (hall polls), ih (polls + 1)]
    omega

/-- C9 counterexample: the claim says a stop with no process handle
performs no coordination-service lookups, but `stop_kafka_process`
unconditionally runs the absence wait, whose loop condition polls
`is_registered` once even when the broker was never registered. -/
theorem C9_stop_counterexample :
    (stop_kafka_process ⟨false, 300, cleanProps⟩ (fun _ => false) 5).zk_lookups ≠ 0 := by
  decide

/-- C9 (amended): stop on a controller with no process handle does not
raise, terminates nothing and leaves the controller state unchanged, but
it still runs the registration-absence wait: at least one registration
lookup happens, and while the identity stays registered the polling
continues for as long as one observes it. -/
theorem C9_stop_no_process_amended (s : BrokerState) (registered : Nat → Bool) (fuel : Nat)
    (hp : s.process = false) (hf : 1 ≤ fuel) :
    (stop_kafka_process s registered fuel).raised = false
    ∧ (stop_kafka_process s registered fuel).terminated = false
    ∧ (stop_kafka_process s registered fuel).state = s
    ∧ 1 ≤ (stop_kafka_process s registered fuel).zk_lookups
    ∧ ((∀ k, registered k = true) →
        (stop_kafka_process s registered fuel).zk_lookups = fuel) := by
  obtain ⟨p, t, props⟩ := s
  have hp' : p = false := hp
  subst hp'
  refine ⟨rfl, rfl, rfl, ?_, ?_⟩
  · obtain ⟨n, rfl⟩ : ∃ n, fuel = n + 1 := ⟨fuel - 1, by omega⟩
    show 1 ≤ wait_absence_polls registered (n + 1) 0
    unfold wait_absence_polls
    by_cases h : registered 0 = true
    · rw [if_pos h]
      exact wait_absence_polls_ge registered n 1
    · rw [if_neg h]
  · intro hall
    show wait_absence_polls registered fuel 0 = fuel
    rw [wait_absence_polls_all_registered registered hall fuel 0]
    omega

/-- Witness for the amended C9: empty handle, never-registered identity,
five observed polls. -/
theorem C9_stop_no_process_amended_witness :
    (⟨false, 300, cleanProps⟩ : BrokerState).process = false ∧ (1 : Nat) ≤ 4
    ∧ ((stop_kafka_process ⟨false, 300, cleanProps⟩ (fun k => decide (k < 2)) 4).raised = false
      ∧ (stop_kafka_process ⟨false, 300, cleanProps⟩ (fun k => decide (k < 2)) 4).terminated
          = false
      ∧ (stop_kafka_process ⟨false, 300, cleanProps⟩ (fun k => decide (k < 2)) 4).state
          = ⟨false, 300, cleanProps⟩
      ∧ 1 ≤ (stop_kafka_process ⟨false, 300, cleanProps⟩ (fun k => decide (k < 2)) 4).zk_lookups
      ∧ ((∀ k, (fun k => decide (k < 2)) k = true) →
          (stop_kafka_process ⟨false, 300, cleanProps⟩ (fun k => decide (k < 2)) 4).zk_lookups
            = 4)) :=
  ⟨rfl, by decide,
    C9_stop_no_process_amended ⟨false, 300, cleanProps⟩ (fun k => decide (k < 2)) 4 rfl
      (by decide)⟩

/-! ### The identity derivation -/

/-- Two addresses with equal octets are equal. -/
theorem IPv4.ext4 (p q : IPv4) (h1 : p.a = q.a) (h2 : p.b = q.b) (h3 : p.c = q.c)
    (h4 : p.d = q.d) : p = q := by
  cases p
  cases q
  simp_all

/-- Folding a four-octet list base 256. -/
theorem foldOctets_quad (x b c d : Nat) :
    foldOctets [ x, b, c, d ] = x * 16777216 + b * 65536 + c * 256 + d := by
  simp [foldOctets, List.foldl]
  ring

set_option maxRecDepth 4096 in
/-- On one byte, the code's mask test `(b & 0xF0) == 16` is the
172.16.0.0/12 membership test on the second octet. -/
theorem land240_eq_16_iff : ∀ b : Nat, b < 256 → ((b &&& 240 = 16) ↔ (16 ≤ b ∧ b ≤ 31)) := by
  decide

/-- An address inside the recognized private space falls in exactly one
of the three blocks. -/
theorem privateRange_cases (ip : IPv4) (h : (privateRange ip).isSome = true) :
    (ip.a = 10 ∧ privateRange ip = some 1)
    ∨ (ip.a = 192 ∧ ip.b = 168 ∧ privateRange ip = some 2)
    ∨ (ip.a = 172 ∧ 16 ≤ ip.b ∧ ip.b ≤ 31 ∧ privateRange ip = some 3) := by
  unfold privateRange at h ⊢
  split_ifs at h ⊢ with h1 h2 h3
  · exact Or.inl ⟨h1, rfl⟩
  · exact Or.inr (Or.inl ⟨h2.1, h2.2, rfl⟩)
  · exact Or.inr (Or.inr ⟨h3.1, h3.2.1, h3.2.2, rfl⟩)
  · simp at h

/-- The derived value in the 10.0.0.0/8 block. -/
theorem rfc1918_value_block10 (ip : IPv4) (h : ip.a = 10) :
    rfc1918_value ip = some (16777216 + ip.b * 65536 + ip.c * 256 + ip.d) := by
  simp [rfc1918_value, rfc1918_discriminated, h, foldOctets_quad]

/-- The derived value in the 192.168.0.0/16 block. -/
theorem rfc1918_value_block192 (ip : IPv4) (ha : ip.a = 192) (hb : ip.b = 168) :
    rfc1918_value ip = some (44564480 + ip.c * 256 + ip.d) := by
  simp [rfc1918_value, rfc1918_discriminated, ha, hb, foldOctets_quad]

/-- The derived value in the 172.16.0.0/12 block. -/
theorem rfc1918_value_block172 (ip : IPv4) (ha : ip.a = 172) (hb : ip.b &&& 240 = 16) :
    rfc1918_value ip = some (50331648 + ip.b * 65536 + ip.c * 256 + ip.d) := by
  simp [rfc1918_value, rfc1918_discriminated, ha, hb, foldOctets_quad]

/-- C4: identity derivation is deterministic (a pure function of the
address), injective on each of the three RFC1918 blocks, and the three
blocks yield pairwise disjoint identity values, because the first octet is
replaced by the discriminator 1, 2 or 3 and the four octets are folded
base 256. -/
theorem C4_identity_injective_and_disjoint (ip1 ip2 : IPv4)
    (hv1 : ip1.valid) (hv2 : ip2.valid)
    (hr1 : (privateRange ip1).isSome = true) (hr2 : (privateRange ip2).isSome = true) :
    create_rfc1918_address_hash ip1 = create_rfc1918_address_hash ip1
    ∧ (privateRange ip1 = privateRange ip2 → rfc1918_value ip1 = rfc1918_value ip2 →
        ip1 = ip2)
    ∧ (privateRange ip1 ≠ privateRange ip2 → rfc1918_value ip1 ≠ rfc1918_value ip2) := by
  obtain ⟨ha1, hb1, hc1, hd1⟩ := hv1
  obtain ⟨ha2, hb2, hc2, hd2⟩ := hv2
  refine ⟨rfl, ?_, ?_⟩
  · rcases privateRange_cases ip1 hr1 with ⟨h1, e1⟩ | ⟨h1a, h1b, e1⟩ | ⟨h1a, h1b, h1c, e1⟩ <;>
      rcases privateRange_cases ip2 hr2 with ⟨h2, e2⟩ | ⟨h2a, h2b, e2⟩ | ⟨h2a, h2b, h2c, e2⟩
    · intro _ hveq
      rw [rfc1918_value_block10 ip1 h1, rfc1918_value_block10 ip2 h2] at hveq
      have h := Option.some.inj hveq
      exact IPv4.ext4 ip1 ip2 (by omega) (by omega) (by omega) (by omega)
    · intro hre _
      rw [e1, e2] at hre
      exact absurd (Option.some.inj hre) (by decide)
    · intro hre _
      rw [e1, e2] at hre
      exact absurd (Option.some.inj hre) (by decide)
    · intro hre _
      rw [e1, e2] at hre
      exact absurd (Option.some.inj hre) (by decide)
    · intro _ hveq
      rw [rfc1918_value_block192 ip1 h1a h1b, rfc1918_value_block192 ip2 h2a h2b] at hveq
      have h := Option.some.inj hveq
      exact IPv4.ext4 ip1 ip2 (by omega) (by omega) (by omega) (by omega)
    · intro hre _
      rw [e1, e2] at hre
      exact absurd (Option.some.inj hre) (by decide)
    · intro hre _
      rw [e1, e2] at hre
      exact absurd (Option.some.inj hre) (by decide)
    · intro hre _
      rw [e1, e2] at hre
      exact absurd (Option.some.inj hre) (by decide)
    · intro _ hveq
      have hm1 : ip1.b &&& 240 = 16 := (land240_eq_16_iff ip1.b hb1).mpr ⟨h1b, h1c⟩
      have hm2 : ip2.b &&& 240 = 16 := (land240_eq_16_iff ip2.b hb2).mpr ⟨h2b, h2c⟩
      rw [rfc1918_value_block172 ip1 h1a hm1, rfc1918_value_block172 ip2 h2a hm2] at hveq
      have h := Option.some.inj hveq
      exact IPv4.ext4 ip1 ip2 (by omega) (by omega) (by omega) (by omega)
  · rcases privateRange_cases ip1 hr1 with ⟨h1, e1⟩ | ⟨h1a, h1b, e1⟩ | ⟨h1a, h1b, h1c, e1⟩ <;>
      rcases privateRange_cases ip2 hr2 with ⟨h2, e2⟩ | ⟨h2a, h2b, e2⟩ | ⟨h2a, h2b, h2c, e2⟩
    · intro hrne _
      rw [e1, e2] at hrne
      exact absurd rfl hrne
    · intro _ hveq
      rw [rfc1918_value_block10 ip1 h1, rfc1918_value_block192 ip2 h2a h2b] at hveq
      have h := Option.some.inj hveq
      omega
    · intro _ hveq
      have hm2 : ip2.b &&& 240 = 16 := (land240_eq_16_iff ip2.b hb2).mpr ⟨h2b, h2c⟩
      rw [rfc1918_value_block10 ip1 h1, rfc1918_value_block172 ip2 h2a hm2] at hveq
      have h := Option.some.inj hveq
      omega
    · intro _ hveq
      rw [rfc1918_value_block192 ip1 h1a h1b, rfc1918_value_block10 ip2 h2] at hveq
      have h := Option.some.inj hveq
      omega
    · intro hrne _
      rw [e1, e2] at hrne
      exact absurd rfl hrne
    · intro _ hveq
      have hm2 : ip2.b &&& 240 = 16 := (land240_eq_16_iff ip2.b hb2).mpr ⟨h2b, h2c⟩
      rw [rfc1918_value_block192 ip1 h1a h1b, rfc1918_value_block172 ip2 h2a hm2] at hveq
      have h := Option.some.inj hveq
      omega
    · intro _ hveq
      have hm1 : ip1.b &&& 240 = 16 := (land240_eq_16_iff ip1.b hb1).mpr ⟨h1b, h1c⟩
      rw [rfc1918_value_block172 ip1 h1a hm1, rfc1918_value_block10 ip2 h2] at hveq
      have h := Option.some.inj hveq
      omega
    · intro _ hveq
      have hm1 : ip1.b &&& 240 = 16 := (land240_eq_16_iff ip1.b hb1).mpr ⟨h1b, h1c⟩
      rw [rfc1918_value_block172 ip1 h1a hm1, rfc1918_value_block192 ip2 h2a h2b] at hveq
      have h := Option.some.inj hveq
      omega
    · intro hrne _
      rw [e1, e2] at hrne
      exact absurd rfl hrne

/-- Witness for C4: one address per distinct block. -/
theorem C4_identity_injective_and_disjoint_witness :
    (IPv4.mk 10 0 0 1).valid ∧ (IPv4.mk 192 168 0 1).valid
    ∧ (privateRange ⟨10, 0, 0, 1⟩).isSome = true
    ∧ (privateRange ⟨192, 168, 0, 1⟩).isSome = true
    ∧ (create_rfc1918_address_hash ⟨10, 0, 0, 1⟩ = create_rfc1918_address_hash ⟨10, 0, 0, 1⟩
      ∧ (privateRange ⟨10, 0, 0, 1⟩ = privateRange ⟨192, 168, 0, 1⟩ →
          rfc1918_value ⟨10, 0, 0, 1⟩ = rfc1918_value ⟨192, 168, 0, 1⟩ →
          (⟨10, 0, 0, 1⟩ : IPv4) = ⟨192, 168, 0, 1⟩)
      ∧ (privateRange ⟨10, 0, 0, 1⟩ ≠ privateRange ⟨192, 168, 0, 1⟩ →
          rfc1918_value ⟨10, 0, 0, 1⟩ ≠ rfc1918_value ⟨192, 168, 0, 1⟩)) :=
  ⟨by decide, by decide, by decide, by decide,
    C4_identity_injective_and_disjoint ⟨10, 0, 0, 1⟩ ⟨192, 168, 0, 1⟩ (by decide) (by decide)
      (by decide) (by decide)⟩

/-- C5 is false on the code: the address 172.16.0.0 lies in the third
recognized range, yet its derived identity 51380224 exceeds the reserved
max id 50331649 = 3 * 256^3 + 1 that `BrokerIDByIp` writes into
`reserved.broker.max.id`, so the delegated auto-assignment space
(everything above the constant) overlaps the address-derived space. -/
theorem C5_reserved_max_id_exceeded_at_172_16_0_0 :
    privateRange ⟨172, 16, 0, 0⟩ = some 3
    ∧ rfc1918_value ⟨172, 16, 0, 0⟩ = some 51380224
    ∧ create_rfc1918_address_hash ⟨172, 16, 0, 0⟩ = some ( "51380224", "50331649" )
    ∧ reservedMaxId = 50331649
    ∧ ¬ 51380224 ≤ reservedMaxId := by
  decide

/-- C6: for a valid address outside the three recognized blocks,
`BrokerIDByIp` construction fails (the hash returns None and the Python
tuple unpacking raises before any configuration write), leaving the
configuration exactly as it was. -/
theorem C6_out_of_range_fails_without_mutation (kp : KafkaProperties) (ip : IPv4)
    (hv : ip.valid) (hout : privateRange ip = none) :
    brokerIDByIp_init kp ip = (none, kp) := by
  obtain ⟨ha, hb, hc, hd⟩ := hv
  have hdisc : rfc1918_discriminated ip = none := by
    unfold privateRange at hout
    split_ifs at hout with h1 h2 h3
    have h3' : ¬ (ip.a = 172 ∧ ip.b &&& 240 = 16) := by
      intro hx
      exact h3 ⟨hx.1, (land240_eq_16_iff ip.b hb).mp hx.2⟩
    unfold rfc1918_discriminated
    rw [if_neg h1, if_neg h2, if_neg h3']
  simp [brokerIDByIp_init, create_rfc1918_address_hash, rfc1918_value, hdisc]

/-- Witness for C6 at the public address 8.8.8.8. -/
theorem C6_out_of_range_fails_without_mutation_witness :
    (IPv4.mk 8 8 8 8).valid ∧ privateRange ⟨8, 8, 8, 8⟩ = none
    ∧ brokerIDByIp_init cleanProps ⟨8, 8, 8, 8⟩ = (none, cleanProps) :=
  ⟨by decide, by decide,
    C6_out_of_range_fails_without_mutation cleanProps ⟨8, 8, 8, 8⟩ (by decide) (by decide)⟩

end Bubuku
